import Mathlib

/-!
# Verification of the rust-architecture-visualizer analysis core

Shallow embedding of the scanner pipeline of `rust-architecture-visualizer`
(`src/scanner/rust_scanner.rs`, `src/scanner/metrics_calculator.rs`,
`src/scanner/dependency_analyzer.rs`, types from `src/types.rs`), together
with theorems settling the frozen claims about it.

Modelling conventions:
* Rust `f64` scores are modelled as `ℚ`.  Every score in scope is a sum of
  small multiples of `1/10` (weights 0.1..2.0) with magnitude far below
  `2^52`, so `f64` arithmetic on them is exact and the rational model agrees
  with the floating-point computation.
* Rust `HashMap<String, ArchitectureNode>` is modelled as a `List` of nodes
  in map-iteration order; the key of an entry is the node's `id` field,
  exactly as `scan` inserts (`nodes.insert(node.id.clone(), node)`).
  Hash-map iteration order is unspecified in Rust, so theorems that
  quantify over scans take the iteration order as an explicit parameter
  (any permutation of the inserted nodes).
* File-system interaction (`WalkDir`) is modelled as a list of walk
  entries, each either a discovered candidate file or an I/O error, which
  is exactly the information `find_rust_files` consumes.  A missing or
  unreadable root directory makes `WalkDir` yield a single error entry.
* `Path::file_stem` and `str::to_lowercase` are standard-library string
  operations; the model takes their results (`stem`, `pathLower`) as given
  fields of a scan file rather than re-implementing Unicode case folding.
-/

/-- `ModuleType` from `src/types.rs`. -/
inductive ModuleType where
  | Core
  | DataProcessing
  | AI
  | Performance
  | Validation
  | Execution
  | Integration
  | API
  | Processing
  | Scaffold
  | Testing
  | Utilities
  | Configuration
  | Database
  | Network
  | Security
  | Logging
  | Monitoring
  | Other (label : String)
deriving DecidableEq, Repr

/-- `DependencyType` from `src/types.rs`. -/
inductive DependencyType where
  | Uses
  | Implements
  | Extends
  | Imports
  | DependsOn
  | Calls
  | References
  | Contains
deriving DecidableEq, Repr

/-- `NodeMetrics` from `src/types.rs` (the `last_build_time : Option<DateTime>`
field, never read by the core, is omitted; `f64` fields are `ℚ`). -/
structure NodeMetrics where
  lines_of_code : Nat
  complexity_score : ℚ
  test_coverage : ℚ
  function_count : Nat
  struct_count : Nat
  enum_count : Nat
  trait_count : Nat
  error_count : Nat
  warning_count : Nat
  dependency_count : Nat
  dependent_count : Nat
  cyclomatic_complexity : ℚ
  cognitive_complexity : ℚ
deriving DecidableEq, Repr

/-- `ArchitectureNode` from `src/types.rs`.  The fields not consumed by any
claim-relevant computation (`status`, `last_modified`, the structural
`functions`/`structs`/`enums`/`traits` lists and `position`) are omitted;
none of them feeds dependency analysis or metrics. -/
structure ArchitectureNode where
  id : String
  name : String
  module_type : ModuleType
  file_path : String
  dependencies : List String
  dependents : List String
  metrics : NodeMetrics
deriving DecidableEq, Repr

/-- `DependencyEdge` from `src/types.rs` (`from` is a Lean keyword, hence
`from_`/`to_`). -/
structure DependencyEdge where
  from_ : String
  to_ : String
  relationship : DependencyType
  strength : ℚ
  is_circular : Bool
deriving DecidableEq, Repr

/-- `ArchitectureMetrics` from `src/types.rs`.  `max_complexity`,
`min_complexity` (computed with an `f64::INFINITY` sentinel),
`modularity_score` and `maintainability_index` (computed with `log2`) are
real-valued and not consumed by any claim; they are omitted from the model. -/
structure ArchitectureMetrics where
  total_functions : Nat
  total_structs : Nat
  total_enums : Nat
  total_traits : Nat
  dependency_density : ℚ
deriving DecidableEq, Repr

/-- `ArchitectureMap` from `src/types.rs` (`last_scan` timestamp omitted;
`nodes` is the id-keyed map in iteration order, key = `.id`). -/
structure ArchitectureMap where
  nodes : List ArchitectureNode
  edges : List DependencyEdge
  total_modules : Nat
  total_lines : Nat
  average_complexity : ℚ
  circular_dependencies : List (List String)
  metrics : ArchitectureMetrics
deriving DecidableEq, Repr

/-! ## Text utilities

`str::matches(pat).count()` counts non-overlapping occurrences of a literal
pattern scanning left to right; `str::contains(pat)` is substring presence;
`str.split(',')` splits at every comma, yielding one (possibly empty) piece
more than the number of commas. -/

/-- Non-overlapping left-to-right count of a non-empty literal pattern,
as computed by Rust `str::matches(pat).count()`.  (The source never counts
an empty pattern; for completeness an empty pattern counts 0.) -/
def countMatchesL : List Char → List Char → Nat
  | _, [] => 0
  | [], _ :: _ => 0
  | c :: rest, p :: ps =>
    if (p :: ps).isPrefixOf (c :: rest) then
      1 + countMatchesL ((c :: rest).drop (p :: ps).length) (p :: ps)
    else
      countMatchesL rest (p :: ps)
termination_by s _ => s.length
decreasing_by
  · simp only [List.length_drop, List.length_cons]
    omega
  · simp only [List.length_cons]
    omega

/-- `str::matches(pat).count()` on strings. -/
def countMatches (s pat : String) : Nat :=
  countMatchesL s.data pat.data

/-- Substring presence on character lists: the pattern is a prefix of some
suffix. -/
def containsSubL (s pat : List Char) : Bool :=
  match s with
  | [] => pat.isEmpty
  | _ :: rest => pat.isPrefixOf s || containsSubL rest pat

/-- `str::contains(pat)` for a literal string pattern. -/
def containsSub (s pat : String) : Bool :=
  containsSubL s.data pat.data

/-- `str::split(',')` on the character list of the capture text: splitting
an empty string yields one empty piece, and in general one piece per comma
plus one. -/
def splitComma (s : List Char) : List (List Char) :=
  s.foldr
    (fun c acc => if c = ',' then [] :: acc else (c :: acc.headI) :: acc.tail)
    [[]]

/-- Rust `str::lines()`: the model splits the character list at every
newline character.  (Rust additionally strips a trailing `'\r'` per line
and drops a final empty segment; both differences are invisible to the
line-based metrics below, which `trim` each line — `'\r'` is whitespace —
and ignore lines that trim to nothing.) -/
def splitNl (s : List Char) : List (List Char) :=
  s.foldr
    (fun c acc => if c = '\n' then [] :: acc else (c :: acc.headI) :: acc.tail)
    [[]]

/-- `str::trim()`: strip leading and trailing whitespace.  (Rust trims
Unicode `White_Space`; `Char.isWhitespace` covers space, tab, CR and LF,
which agree on all inputs in scope.) -/
def trimL (s : List Char) : List Char :=
  ((s.dropWhile Char.isWhitespace).reverse.dropWhile Char.isWhitespace).reverse

/-! ## Metrics calculator (`src/scanner/metrics_calculator.rs`) -/

/-- `MetricsCalculator::count_lines_of_code`: non-blank lines not starting
(after trimming) with a line or block comment marker. -/
def count_lines_of_code (content : String) : Nat :=
  ((splitNl content.data).filter (fun line =>
    let trimmed := trimL line
    !trimmed.isEmpty && !("//".data.isPrefixOf trimmed)
      && !("/*".data.isPrefixOf trimmed))).length

/-- `MetricsCalculator::calculate_complexity`: base 1.0 plus weighted
occurrence counts of branching keywords, nested braces, async markers and
error-prone idioms. -/
def calculate_complexity (content : String) : ℚ :=
  let complexity : ℚ := 1
  let complexity := complexity + (countMatches content "if " : ℚ) * (5/10)
  let complexity := complexity + (countMatches content "match " : ℚ) * (8/10)
  let complexity := complexity + (countMatches content "for " : ℚ) * (6/10)
  let complexity := complexity + (countMatches content "while " : ℚ) * (7/10)
  let complexity := complexity + (countMatches content "loop " : ℚ) * (8/10)
  let complexity := complexity + (countMatches content "\x7b\x7b" : ℚ) * (1/10)
  let complexity := if containsSub content "async" then complexity + 5/10 else complexity
  let complexity := complexity + (countMatches content "?." : ℚ) * (2/10)
  let complexity := complexity + (countMatches content "unwrap()" : ℚ) * (1/10)
  let complexity := complexity + (countMatches content "expect(" : ℚ) * (1/10)
  complexity

/-- `MetricsCalculator::calculate_cyclomatic_complexity`: base 1.0 plus one
per decision-point keyword occurrence. -/
def calculate_cyclomatic_complexity (content : String) : ℚ :=
  1 + (countMatches content "if " : ℚ) + (countMatches content "match " : ℚ)
    + (countMatches content "for " : ℚ) + (countMatches content "while " : ℚ)
    + (countMatches content "loop " : ℚ) + (countMatches content "&&" : ℚ)
    + (countMatches content "||" : ℚ)

/-- `i32::MIN`, the saturation bound of `i32::saturating_sub`. -/
def i32Min : Int := -(2 ^ 31)

/-- Loop state of `MetricsCalculator::calculate_cognitive_complexity`:
the `i32` nesting counter and the accumulated complexity. -/
structure CogState where
  nesting : Int
  complexity : ℚ
deriving DecidableEq, Repr

/-- One iteration of the line loop in `calculate_cognitive_complexity`.
The nesting counter is an `i32`; `nesting_level.saturating_sub(1)`
saturates at `i32::MIN` (not at 0). -/
def cognitiveStep (s : CogState) (line : List Char) : CogState :=
  let trimmed := trimL line
  let nesting := if trimmed.contains '{' then s.nesting + 1 else s.nesting
  let nesting := if trimmed.contains '}' then max (nesting - 1) i32Min else nesting
  let complexity :=
    if "if ".data.isPrefixOf trimmed then s.complexity + 1 + (nesting : ℚ)
    else if "match ".data.isPrefixOf trimmed then s.complexity + 2 + (nesting : ℚ)
    else if "for ".data.isPrefixOf trimmed || "while ".data.isPrefixOf trimmed then
      s.complexity + 1 + (nesting : ℚ)
    else if "loop ".data.isPrefixOf trimmed then s.complexity + 3/2 + (nesting : ℚ)
    else s.complexity
  ⟨nesting, complexity⟩

/-- `MetricsCalculator::calculate_cognitive_complexity`. -/
def calculate_cognitive_complexity (content : String) : ℚ :=
  ((splitNl content.data).foldl cognitiveStep ⟨0, 0⟩).complexity

/-- The nesting counter after scanning the given lines (exposed for
reasoning about the loop's intermediate state). -/
def cognitiveNestingAfter (lines : List (List Char)) : Int :=
  (lines.foldl cognitiveStep ⟨0, 0⟩).nesting

/-- `MetricsCalculator::count_functions`. -/
def count_functions (content : String) : Nat :=
  countMatches content "fn "

/-- `MetricsCalculator::count_structs`. -/
def count_structs (content : String) : Nat :=
  countMatches content "struct "

/-- `MetricsCalculator::count_enums`. -/
def count_enums (content : String) : Nat :=
  countMatches content "enum "

/-- `MetricsCalculator::count_traits`. -/
def count_traits (content : String) : Nat :=
  countMatches content "trait "

/-- `MetricsCalculator::count_errors`. -/
def count_errors (content : String) : Nat :=
  countMatches content "panic!" + countMatches content "unwrap()"

/-- `MetricsCalculator::count_warnings`. -/
def count_warnings (content : String) : Nat :=
  countMatches content "#[warn("

/-- `MetricsCalculator::calculate_node_metrics`: per-file metrics;
`dependency_count`/`dependent_count` are set to 0 here (the source comment
says they will be updated by the dependency analyzer). -/
def calculate_node_metrics (content : String) : NodeMetrics where
  lines_of_code := count_lines_of_code content
  complexity_score := calculate_complexity content
  test_coverage := 0
  function_count := count_functions content
  struct_count := count_structs content
  enum_count := count_enums content
  trait_count := count_traits content
  error_count := count_errors content
  warning_count := count_warnings content
  dependency_count := 0
  dependent_count := 0
  cyclomatic_complexity := calculate_cyclomatic_complexity content
  cognitive_complexity := calculate_cognitive_complexity content

/-- `MetricsCalculator::calculate_dependency_density`: edge count over
`N*(N-1)`, 0 when `N <= 1`. -/
def calculate_dependency_density (nodes : List ArchitectureNode)
    (edges : List DependencyEdge) : ℚ :=
  let node_count := nodes.length
  if node_count ≤ 1 then 0
  else (edges.length : ℚ) / ((node_count * (node_count - 1) : Nat) : ℚ)

/-- `MetricsCalculator::calculate_architecture_metrics` (restricted to the
modelled fields, see `ArchitectureMetrics`). -/
def calculate_architecture_metrics (nodes : List ArchitectureNode)
    (edges : List DependencyEdge) : ArchitectureMetrics where
  total_functions := (nodes.map (fun n => n.metrics.function_count)).sum
  total_structs := (nodes.map (fun n => n.metrics.struct_count)).sum
  total_enums := (nodes.map (fun n => n.metrics.enum_count)).sum
  total_traits := (nodes.map (fun n => n.metrics.trait_count)).sum
  dependency_density := calculate_dependency_density nodes edges

/-! ## Fact extraction (`src/scanner/rust_scanner.rs`)

The two dependency patterns `use\s+crate::([^;]+)` and `mod\s+(\w+)` are
literal/character-class regexes; the model implements their leftmost,
non-overlapping `captures_iter` semantics directly: at each position try the
pattern (its quantifiers are greedy and each is followed by a literal or
nothing, so maximal munch is exact); on success emit the capture and resume
after the match, otherwise advance one character.  The scanners carry a
fuel argument bounding the number of scan steps; every step consumes at
least one character, so fuel `s.length + 1` always suffices. -/

/-- Match a literal, returning the remaining input. -/
def matchLit (pat s : List Char) : Option (List Char) :=
  if pat.isPrefixOf s then some (s.drop pat.length) else none

/-- Match `\s+` (greedy; the regex continues with a non-whitespace literal
or a word character, so maximal munch is exact). -/
def matchWs1 (s : List Char) : Option (List Char) :=
  match s with
  | [] => none
  | c :: rest =>
    if c.isWhitespace then some (rest.dropWhile Char.isWhitespace) else none

/-- A regex word character `\w` (ASCII range, as used by the source's
identifiers). -/
def isWordChar (c : Char) : Bool :=
  c.isAlphanum || c = '_'

/-- Try `use\s+crate::([^;]+)` at the head of the input; on success return
the capture and the input after the match. -/
def matchUseCapture (s : List Char) : Option (List Char × List Char) :=
  (matchLit "use".data s).bind fun s1 =>
    (matchWs1 s1).bind fun s2 =>
      (matchLit "crate::".data s2).bind fun s3 =>
        let cap := s3.takeWhile (fun c => c ≠ ';')
        if cap.isEmpty then none else some (cap, s3.drop cap.length)

/-- Try `mod\s+(\w+)` at the head of the input. -/
def matchModCapture (s : List Char) : Option (List Char × List Char) :=
  (matchLit "mod".data s).bind fun s1 =>
    (matchWs1 s1).bind fun s2 =>
      let cap := s2.takeWhile isWordChar
      if cap.isEmpty then none else some (cap, s2.drop cap.length)

/-- `captures_iter` for `use\s+crate::([^;]+)`. -/
def useCapturesAux : Nat → List Char → List (List Char)
  | 0, _ => []
  | _, [] => []
  | fuel + 1, s =>
    match matchUseCapture s with
    | some (cap, s2) => cap :: useCapturesAux fuel s2
    | none => useCapturesAux fuel s.tail

/-- All captures of `use\s+crate::([^;]+)` over the content. -/
def useCaptures (s : List Char) : List (List Char) :=
  useCapturesAux (s.length + 1) s

/-- `captures_iter` for `mod\s+(\w+)`. -/
def modCapturesAux : Nat → List Char → List (List Char)
  | 0, _ => []
  | _, [] => []
  | fuel + 1, s =>
    match matchModCapture s with
    | some (cap, s2) => cap :: modCapturesAux fuel s2
    | none => modCapturesAux fuel s.tail

/-- All captures of `mod\s+(\w+)` over the content. -/
def modCaptures (s : List Char) : List (List Char) :=
  modCapturesAux (s.length + 1) s

/-- `ArchitectureScanner::extract_dependencies`: all `use crate::…`
captures followed by all `mod` declaration captures, duplicates retained. -/
def extract_dependencies (content : String) : List String :=
  (useCaptures content.data).map String.mk
    ++ (modCaptures content.data).map String.mk

/-- `ArchitectureScanner::extract_module_name`: the source matches
`pub\s+mod\s+(\w+)|mod\s+(\w+)` and takes the first match's captured word;
that word is always the captured word of the first `mod\s+(\w+)` match
(an alternative-1 match at position `p` contains an alternative-2 match at
`p+4` with the same capture, and no `mod\s+` match can start strictly
between them).  Falls back to the file stem. -/
def extract_module_name (stem : String) (content : String) : String :=
  match modCaptures content.data with
  | cap :: _ => String.mk cap
  | [] => stem

/-- `ArchitectureScanner::determine_module_type`: path-substring heuristics
in priority order, then content-substring heuristics, defaulting to `Core`.
`pathLower` is the lowercased path string. -/
def determine_module_type (pathLower : String) (content : String) : ModuleType :=
  if containsSub pathLower "test" || containsSub pathLower "tests" then .Testing
  else if containsSub pathLower "example" || containsSub pathLower "examples" then .Utilities
  else if containsSub pathLower "bench" || containsSub pathLower "benches" then .Performance
  else if containsSub pathLower "config" || containsSub pathLower "settings" then .Configuration
  else if containsSub pathLower "api" || containsSub pathLower "routes" then .API
  else if containsSub pathLower "db" || containsSub pathLower "database" then .Database
  else if containsSub pathLower "network" || containsSub pathLower "net" then .Network
  else if containsSub pathLower "auth" || containsSub pathLower "security" then .Security
  else if containsSub pathLower "log" || containsSub pathLower "logging" then .Logging
  else if containsSub pathLower "monitor" || containsSub pathLower "metrics" then .Monitoring
  else if containsSub content "async" && containsSub content "tokio" then .Execution
  else if containsSub content "serde" && containsSub content "Serialize" then .DataProcessing
  else if containsSub content "trait" && containsSub content "async" then .Integration
  else if containsSub content "struct" && containsSub content "impl" then .Core
  else .Core

/-- One candidate file as consumed by `parse_rust_file`: its relative path
string, its file stem (`Path::file_stem`), its lowercased path
(`to_lowercase`), and its text content. -/
structure ScanFile where
  path : String
  stem : String
  pathLower : String
  content : String
deriving DecidableEq, Repr

/-- `ArchitectureScanner::parse_rust_file` (successful case), with the
freshly generated UUID supplied as `id`.  `dependents` starts empty and
`calculate_node_metrics` sets both dependency counts to 0; the source
comments say the dependency analyzer will fill them in. -/
def parse_rust_file (id : String) (f : ScanFile) : ArchitectureNode where
  id := id
  name := extract_module_name f.stem f.content
  module_type := determine_module_type f.pathLower f.content
  file_path := f.path
  dependencies := extract_dependencies f.content
  dependents := []
  metrics := calculate_node_metrics f.content

/-- The nodes inserted into the map by `scan`'s parse loop: one node per
file, with its freshly generated id.  (A file whose read fails is skipped
by `if let Ok(node)`; the model's file list is the successfully read
files.) -/
def scanNodes (files : List ScanFile) (ids : List String) : List ArchitectureNode :=
  (files.zip ids).map (fun fi => parse_rust_file fi.2 fi.1)

/-! ## Dependency analyzer (`src/scanner/dependency_analyzer.rs`) -/

/-- `DependencyAnalyzer::find_node_by_name`: first node (in map iteration
order) whose `name` equals the raw dependency string. -/
def find_node_by_name (nodes : List ArchitectureNode) (name : String) :
    Option ArchitectureNode :=
  nodes.find? (fun node => node.name == name)

/-- `DependencyAnalyzer::determine_relationship_type`. -/
def determine_relationship_type (source target : ArchitectureNode) :
    DependencyType :=
  match source.module_type, target.module_type with
  | .API, .Core => .Uses
  | .Core, .DataProcessing => .Uses
  | .Execution, .Core => .Uses
  | .Integration, .API => .Uses
  | .Testing, _ => .Uses
  | _, _ => .DependsOn

/-- `DependencyAnalyzer::calculate_dependency_strength`: base 1.0, +0.1 per
source dependency, +0.5 for a Core target, +0.3 for an API source, then
`min` with 1.0. -/
def calculate_dependency_strength (source target : ArchitectureNode) : ℚ :=
  let strength : ℚ := 1
  let strength := strength + (source.dependencies.length : ℚ) * (1/10)
  let strength := if target.module_type = .Core then strength + 5/10 else strength
  let strength := if source.module_type = .API then strength + 3/10 else strength
  min strength 1

/-- The edge-building loop of `DependencyAnalyzer::analyze_dependencies`:
for every node (in map iteration order) and every raw dependency name (in
extraction order), resolve the name and emit an edge; unresolved names emit
nothing.  `is_circular` starts `false`. -/
def analyze_edges (nodes : List ArchitectureNode) : List DependencyEdge :=
  nodes.flatMap (fun source =>
    source.dependencies.filterMap (fun dep_name =>
      (find_node_by_name nodes dep_name).map (fun target =>
        { from_ := source.id
          to_ := target.id
          relationship := determine_relationship_type source target
          strength := calculate_dependency_strength source target
          is_circular := false })))

/-- `HashMap::entry(..).or_insert_with(Vec::new).push(..)` on an
association list: append to the key's vector, creating the entry if absent.
(Key iteration order of the Rust `HashMap` is unspecified; the model uses
first-insertion order.  No theorem below depends on this choice: general
theorems are stated over the cycle list, and concrete evaluations use
graphs whose result is order-independent or fully computed.) -/
def insertAdj (g : List (String × List String)) (k v : String) :
    List (String × List String) :=
  match g with
  | [] => [(k, [v])]
  | (k0, vs) :: rest =>
    if k0 == k then (k0, vs ++ [v]) :: rest else (k0, vs) :: insertAdj rest k v

/-- The adjacency list built by `find_circular_dependencies`. -/
def buildGraph (edges : List DependencyEdge) : List (String × List String) :=
  edges.foldl (fun g e => insertAdj g e.from_ e.to_) []

/-- `graph.get(node)`. -/
def lookupAdj (graph : List (String × List String)) (k : String) :
    Option (List String) :=
  (graph.find? (fun p => p.1 == k)).map Prod.snd

/-- `DependencyAnalyzer::dfs_find_cycles`.  `visited` and `cycles` thread
through and are returned; `rec_stack` and `path` are restored by the Rust
code on exit, so they are plain parameters.  `fuel` bounds recursion depth;
each nested call visits a previously unvisited node, so any fuel larger
than the number of distinct node ids suffices and the fuel-out branch is
unreachable then. -/
def dfs_find_cycles (fuel : Nat) (graph : List (String × List String))
    (node : String) (visited recStack path : List String)
    (cycles : List (List String)) : List String × List (List String) :=
  match fuel with
  | 0 => (visited, cycles)
  | fuel + 1 =>
    let visited := node :: visited
    let recStack := node :: recStack
    let path := path ++ [node]
    match lookupAdj graph node with
    | none => (visited, cycles)
    | some neighbors =>
      neighbors.foldl
        (fun acc neighbor =>
          if !acc.1.contains neighbor then
            dfs_find_cycles fuel graph neighbor acc.1 recStack path acc.2
          else if recStack.contains neighbor then
            match path.findIdx? (fun n => n == neighbor) with
            | some cycle_start => (acc.1, acc.2 ++ [path.drop cycle_start])
            | none => acc
          else acc)
        (visited, cycles)

/-- `DependencyAnalyzer::find_circular_dependencies`: DFS from every
unvisited key of the adjacency list, accumulating cycles. -/
def find_circular_dependencies (edges : List DependencyEdge) :
    List (List String) :=
  let graph := buildGraph edges
  (graph.map Prod.fst |>.foldl
    (fun acc node =>
      if !acc.1.contains node then
        dfs_find_cycles (2 * edges.length + 2) graph node acc.1 [] [] acc.2
      else acc)
    ([], [])).2

/-- `DependencyAnalyzer::update_circular_dependencies` (its `nodes`
parameter is unused by the source): flag each edge whose `(from,to)` or
`(to,from)` pair appears as an adjacent pair (`windows(2)`) in some
detected cycle. -/
def update_circular_dependencies (edges : List DependencyEdge) :
    List DependencyEdge :=
  let circular_deps := find_circular_dependencies edges
  edges.map (fun edge =>
    { edge with
      is_circular := circular_deps.any (fun cycle =>
        (cycle.zip cycle.tail).any (fun pair =>
          (pair.1 == edge.from_ && pair.2 == edge.to_)
            || (pair.1 == edge.to_ && pair.2 == edge.from_))) })

/-- `DependencyAnalyzer::analyze_dependencies`: build the edges, then set
the circularity flags.  (The source wraps the result in `Ok`; no failure
path exists.) -/
def analyze_dependencies (nodes : List ArchitectureNode) :
    List DependencyEdge :=
  update_circular_dependencies (analyze_edges nodes)

/-! ## Scan orchestration (`ArchitectureScanner::scan` and
`find_rust_files`) -/

/-- `ArchitectureScanner::scan` downstream of file parsing: the argument is
the parsed node map in its iteration order. -/
def scan (nodesIter : List ArchitectureNode) : ArchitectureMap :=
  let edges := analyze_dependencies nodesIter
  let metrics := calculate_architecture_metrics nodesIter edges
  let circular_dependencies := find_circular_dependencies edges
  let total_modules := nodesIter.length
  let total_lines := (nodesIter.map (fun n => n.metrics.lines_of_code)).sum
  let average_complexity : ℚ :=
    if 0 < total_modules then
      (nodesIter.map (fun n => n.metrics.complexity_score)).sum
        / (total_modules : ℚ)
    else 0
  { nodes := nodesIter
    edges := edges
    total_modules := total_modules
    total_lines := total_lines
    average_complexity := average_complexity
    circular_dependencies := circular_dependencies
    metrics := metrics }

/-- `ArchitectureScanner::find_rust_files`: the directory walk yields
entries that are either candidate files (already past the extension,
include/exclude and size filters, none of which a claim concerns) or I/O
errors; `filter_map(|e| e.ok())` silently drops every error entry.  The
function's only `Ok`-wrapped return is the surviving file list — it has no
error path. -/
def find_rust_files (entries : List (Except String ScanFile)) :
    Except String (List ScanFile) :=
  Except.ok (entries.filterMap Except.toOption)

/-- `scan` from the directory walk: `find_rust_files` (its error would
propagate via `?`), then parse each file and run the pipeline, using the
parse-insertion order as map iteration order. -/
def scanFromWalk (entries : List (Except String ScanFile))
    (ids : List String) : Except String ArchitectureMap :=
  match find_rust_files entries with
  | Except.error e => Except.error e
  | Except.ok files => Except.ok (scan (scanNodes files ids))

/-- Parameter counting in `ArchitectureScanner::extract_functions`: the
captured parameter text of the secondary per-function pattern
`fn\s+name\s*\(([^)]*)\)` is split at commas and the pieces are counted;
a failed secondary match yields 0 (`unwrap_or(0)`). -/
def param_count (capture : Option (List Char)) : Nat :=
  match capture with
  | some s => (splitComma s).length
  | none => 0

/-! ## Shared concrete scan scenarios

Small directories used as concrete inputs by several theorems and
witnesses below. -/

/-- A file `a.rs` with empty content: module name falls back to the stem
`a`, no dependencies, kind `Core`. -/
def fileA : ScanFile := ⟨"a.rs", "a", "a.rs", ""⟩

/-- A file `x/y.rs` whose content references module `a` once. -/
def fileB : ScanFile := ⟨"x/y.rs", "y", "x/y.rs", "use crate::a;\n"⟩

/-- A file `x/y.rs` whose content references module `a` three times. -/
def fileB3 : ScanFile :=
  ⟨"x/y.rs", "y", "x/y.rs", "use crate::a;\nuse crate::a;\nuse crate::a;\n"⟩

/-- A file whose content declares `mod a;`: its extracted name is `a` and
its dependency list is `["a"]`, so the module names itself — a self-loop. -/
def fileSelf : ScanFile := ⟨"s.rs", "s", "s.rs", "mod a;\n"⟩

/-! ## C9: parameter counting never reports 0 on a successful match -/

/-- `splitComma` never returns the empty list. -/
theorem splitComma_ne_nil (s : List Char) : splitComma s ≠ [] := by
  induction s with
  | nil => simp [splitComma]
  | cons c rest ih =>
    unfold splitComma at *
    by_cases h : c = ','
    · simp [h]
    · simp [h]

/-- C9: whenever the secondary per-function parameter pattern matches, the
reported `parameter_count` is at least 1 — splitting even an empty capture
at commas yields one piece — and a count of 0 arises only from a failed
match (`unwrap_or(0)`). -/
theorem C9_param_count_positive_when_matched :
    (∀ cap : Option (List Char), cap ≠ none → 1 ≤ param_count cap)
      ∧ param_count (some []) = 1 ∧ param_count none = 0 := by
  refine ⟨fun cap hne => ?_, rfl, rfl⟩
  match cap with
  | none => exact absurd rfl hne
  | some s =>
    have h := splitComma_ne_nil s
    have : 0 < (splitComma s).length := List.length_pos.mpr h
    simpa [param_count] using this

/-- Witness for C9 at the empty capture (a zero-argument function whose
parameter text is empty). -/
theorem C9_witness :
    1 ≤ param_count (some []) :=
  C9_param_count_positive_when_matched.1 (some []) (by simp)

/-! ## C6: edge strength always saturates at exactly 1.0 -/

/-- The strength formula: base 1.0 already reaches the cap, every bonus is
non-negative, so the `min` with 1.0 always returns exactly 1.0. -/
theorem calculate_dependency_strength_eq_one (source target : ArchitectureNode) :
    calculate_dependency_strength source target = 1 := by
  unfold calculate_dependency_strength
  have hdep : (0 : ℚ) ≤ (source.dependencies.length : ℚ) * (1 / 10) := by positivity
  split_ifs <;>
    · refine min_eq_right ?_
      linarith

/-- Membership in the edge-building loop's output: every produced edge is
built from a source node and a resolved target. -/
theorem mem_analyze_edges {nodes : List ArchitectureNode} {e : DependencyEdge}
    (he : e ∈ analyze_edges nodes) :
    ∃ source ∈ nodes, ∃ dep_name ∈ source.dependencies,
      ∃ target, find_node_by_name nodes dep_name = some target ∧
        e = { from_ := source.id
              to_ := target.id
              relationship := determine_relationship_type source target
              strength := calculate_dependency_strength source target
              is_circular := false } := by
  simp only [analyze_edges, List.mem_flatMap, List.mem_filterMap,
    Option.map_eq_some'] at he
  obtain ⟨source, hsource, dep_name, hdep, target, htarget, he⟩ := he
  exact ⟨source, hsource, dep_name, hdep, target, htarget, he.symm⟩

/-- `update_circular_dependencies` only rewrites the `is_circular` flag. -/
theorem mem_update_circular_dependencies {edges : List DependencyEdge}
    {e : DependencyEdge} (he : e ∈ update_circular_dependencies edges) :
    ∃ e0 ∈ edges, e.from_ = e0.from_ ∧ e.to_ = e0.to_
      ∧ e.relationship = e0.relationship ∧ e.strength = e0.strength := by
  simp only [update_circular_dependencies, List.mem_map] at he
  obtain ⟨e0, he0, he⟩ := he
  exact ⟨e0, he0, by rw [← he], by rw [← he], by rw [← he], by rw [← he]⟩

/-- C6: the strength score is base 1.0 plus 0.1 per source dependency,
plus 0.5 for a Core target, plus 0.3 for an API source, clamped to a
maximum of 1.0 — and since the base alone already reaches the cap and
every bonus is non-negative, the strength of every edge the analyzer
produces equals exactly 1.0. -/
theorem C6_strength_always_saturates :
    (∀ source target : ArchitectureNode,
        calculate_dependency_strength source target = 1)
      ∧ ∀ nodes : List ArchitectureNode,
          (analyze_dependencies nodes).all (fun e => e.strength == 1) = true := by
  refine ⟨calculate_dependency_strength_eq_one, fun nodes => ?_⟩
  rw [List.all_eq_true]
  intro e he
  rw [beq_iff_eq]
  obtain ⟨e0, he0, -, -, -, hstr⟩ := mem_update_circular_dependencies he
  obtain ⟨source, -, dep_name, -, target, -, he0eq⟩ := mem_analyze_edges he0
  rw [hstr, he0eq]
  exact calculate_dependency_strength_eq_one source target

/-! ## C2: the cognitive-complexity nesting counter can go negative

`nesting_level` is an `i32` and `saturating_sub(1)` saturates at
`i32::MIN`, not at 0 as the spec states: a leading close-brace line drives
the counter to −1, and a control-structure line seen at negative nesting
contributes less than its base weight. -/

/-- C2 (code bug): after the single line `}` the nesting counter is −1,
not 0, and on the input `"}\nif x {"` the scan yields cognitive
complexity 1.0 (the `if` line contributes `1 + 0` after the counter
recovers to 0 on its own opening brace), whereas the floored-at-0 scan the
claim describes would keep the counter at 0 and yield `1 + 1 = 2`. -/
theorem C2_nesting_counter_goes_negative :
    cognitiveNestingAfter ["\x7d".data] = -1
      ∧ calculate_cognitive_complexity "\x7d\nif x \x7b" = 1
      ∧ cognitiveNestingAfter ["\x7d".data] < 0 := by
  refine ⟨by decide, ?_, by decide⟩
  show (0 : ℚ) + 1 + ((0 : Int) : ℚ) = 1
  norm_num

/-! ## C1: a missing or unreadable root is silently swallowed

`find_rust_files` iterates `WalkDir` with `filter_map(|e| e.ok())`: every
error entry — including the single error entry produced when the root path
itself is missing or unreadable — is dropped, and the function returns
`Ok` with the surviving files.  `scan` therefore returns a successful
empty snapshot instead of an error. -/

/-- C1 (counterexample): a walk whose root is missing yields exactly one
error entry; `scan` on it succeeds with an empty snapshot — zero modules,
no edges — rather than returning a `SelectionError`-class failure. -/
theorem C1_counterexample_missing_root_scan_succeeds :
    scanFromWalk [Except.error "No such file or directory (os error 2)"] []
        = Except.ok (scan [])
      ∧ (scan []).total_modules = 0
      ∧ (scan []).edges = [] := by
  exact ⟨rfl, rfl, rfl⟩

/-- C1 (amended): when every walk entry is an error — as when the root
path is missing or unreadable — `scan` does not propagate any error: it
returns a successful snapshot with zero nodes and zero edges. -/
theorem C1_root_errors_silently_skipped
    (entries : List (Except String ScanFile)) (ids : List String)
    (herr : ∀ e ∈ entries, e.toOption = none) :
    scanFromWalk entries ids = Except.ok (scan [])
      ∧ (scan []).total_modules = 0 ∧ (scan []).edges = [] := by
  have hfiles : entries.filterMap Except.toOption = [] :=
    List.filterMap_eq_nil_iff.mpr herr
  refine ⟨?_, rfl, rfl⟩
  simp only [scanFromWalk, find_rust_files, hfiles, scanNodes, List.zip_nil_left,
    List.map_nil]

/-- Witness for C1 at the one-error walk of a missing root. -/
theorem C1_witness :
    scanFromWalk [Except.error "No such file or directory (os error 2)"] []
        = Except.ok (scan [])
      ∧ (scan []).total_modules = 0 ∧ (scan []).edges = [] :=
  C1_root_errors_silently_skipped
    [Except.error "No such file or directory (os error 2)"] []
    (by intro e he; simp at he; simp [he, Except.toOption])

/-! ## C8: edges never dangle, unresolved names produce no edge -/

/-- Counting `filterMap` survivors over an `Option.map`: exactly the
entries whose lookup succeeds survive. -/
theorem length_filterMap_map (l : List String)
    (f : String → Option ArchitectureNode)
    (g : String → ArchitectureNode → DependencyEdge) :
    (l.filterMap (fun d => (f d).map (g d))).length
      = (l.filter (fun d => (f d).isSome)).length := by
  induction l with
  | nil => rfl
  | cons d rest ih =>
    cases hfd : f d <;> simp [List.filterMap_cons, List.filter_cons, hfd, ih]

/-- C8: in every snapshot the `from` and `to` of every edge are ids present
among the snapshot's node-map keys, and the edge list has exactly one edge
per resolvable dependency occurrence — a dependency name matching no node's
name produces no edge. -/
theorem C8_edges_reference_existing_nodes (nodesIter : List ArchitectureNode) :
    ((scan nodesIter).edges.all (fun e =>
        ((scan nodesIter).nodes.map ArchitectureNode.id).contains e.from_
          && ((scan nodesIter).nodes.map ArchitectureNode.id).contains e.to_))
        = true
      ∧ (scan nodesIter).edges.length
          = (nodesIter.map (fun source =>
              (source.dependencies.filter
                (fun d => (find_node_by_name nodesIter d).isSome)).length)).sum := by
  constructor
  · rw [List.all_eq_true]
    intro e he
    have he' : e ∈ analyze_dependencies nodesIter := he
    obtain ⟨e0, he0, hfrom, hto, -, -⟩ := mem_update_circular_dependencies he'
    obtain ⟨source, hsource, dep_name, -, target, htarget, he0eq⟩ :=
      mem_analyze_edges he0
    have htmem : target ∈ nodesIter := List.mem_of_find?_eq_some htarget
    have h1 : e.from_ ∈ (scan nodesIter).nodes.map ArchitectureNode.id := by
      rw [hfrom, he0eq]
      exact List.mem_map_of_mem ArchitectureNode.id hsource
    have h2 : e.to_ ∈ (scan nodesIter).nodes.map ArchitectureNode.id := by
      rw [hto, he0eq]
      exact List.mem_map_of_mem ArchitectureNode.id htmem
    rw [List.contains, List.contains, List.elem_eq_true_of_mem h1,
      List.elem_eq_true_of_mem h2, Bool.and_self]
  · show (analyze_dependencies nodesIter).length = _
    rw [analyze_dependencies, update_circular_dependencies, List.length_map,
      analyze_edges, List.length_flatMap]
    congr 1
    congr 1
    funext source
    simp only [Function.comp_apply]
    exact length_filterMap_map source.dependencies
      (find_node_by_name nodesIter) _

/-! ## C10: heuristic complexity is bounded below by 1.0 -/

/-- The complexity score is its base 1.0 plus non-negative increments. -/
theorem one_le_calculate_complexity (content : String) :
    1 ≤ calculate_complexity content := by
  unfold calculate_complexity
  have h1 : (0:ℚ) ≤ (countMatches content "if " : ℚ) * (5/10) := by positivity
  have h2 : (0:ℚ) ≤ (countMatches content "match " : ℚ) * (8/10) := by positivity
  have h3 : (0:ℚ) ≤ (countMatches content "for " : ℚ) * (6/10) := by positivity
  have h4 : (0:ℚ) ≤ (countMatches content "while " : ℚ) * (7/10) := by positivity
  have h5 : (0:ℚ) ≤ (countMatches content "loop " : ℚ) * (8/10) := by positivity
  have h6 : (0:ℚ) ≤ (countMatches content "\x7b\x7b" : ℚ) * (1/10) := by positivity
  have h7 : (0:ℚ) ≤ (countMatches content "?." : ℚ) * (2/10) := by positivity
  have h8 : (0:ℚ) ≤ (countMatches content "unwrap()" : ℚ) * (1/10) := by positivity
  have h9 : (0:ℚ) ≤ (countMatches content "expect(" : ℚ) * (1/10) := by positivity
  split_ifs <;> linarith

/-- A list of rationals bounded below by 1 sums to at least its length. -/
theorem length_le_sum_of_one_le {l : List ℚ} (h : ∀ x ∈ l, 1 ≤ x) :
    (l.length : ℚ) ≤ l.sum := by
  induction l with
  | nil => simp
  | cons x rest ih =>
    have hx : 1 ≤ x := h x (List.mem_cons_self x rest)
    have hr : (rest.length : ℚ) ≤ rest.sum :=
      ih (fun y hy => h y (List.mem_cons_of_mem x hy))
    simp only [List.length_cons, List.sum_cons, Nat.cast_succ]
    linarith

/-- C10: the heuristic complexity score of any text is at least 1.0;
consequently every node of every scanned snapshot has
`complexity_score ≥ 1.0` and the snapshot's `average_complexity` is at
least 1.0 whenever there is at least one module. -/
theorem C10_complexity_bounded_below
    (files : List ScanFile) (ids : List String)
    (iter : List ArchitectureNode) (hiter : iter.Perm (scanNodes files ids)) :
    (∀ content : String, 1 ≤ calculate_complexity content)
      ∧ (∀ n ∈ (scan iter).nodes, 1 ≤ n.metrics.complexity_score)
      ∧ (0 < (scan iter).total_modules →
          1 ≤ (scan iter).average_complexity) := by
  have hnode : ∀ n ∈ (scan iter).nodes, 1 ≤ n.metrics.complexity_score := by
    intro n hn
    have hn' : n ∈ scanNodes files ids := hiter.mem_iff.mp hn
    simp only [scanNodes, List.mem_map] at hn'
    obtain ⟨fi, -, rfl⟩ := hn'
    exact one_le_calculate_complexity fi.1.content
  refine ⟨one_le_calculate_complexity, hnode, fun hpos => ?_⟩
  show 1 ≤ (scan iter).average_complexity
  have hlen : 0 < iter.length := hpos
  have hsum : ((iter.map (fun n => n.metrics.complexity_score)).length : ℚ)
      ≤ (iter.map (fun n => n.metrics.complexity_score)).sum := by
    refine length_le_sum_of_one_le ?_
    intro x hx
    obtain ⟨n, hn, rfl⟩ := List.mem_map.mp hx
    exact hnode n hn
  rw [List.length_map] at hsum
  have hcast : (0:ℚ) < (iter.length : ℚ) := by exact_mod_cast hlen
  show (if 0 < iter.length then
      (iter.map (fun n => n.metrics.complexity_score)).sum / (iter.length : ℚ)
    else 0) ≥ 1
  rw [if_pos hlen, ge_iff_le, le_div_iff₀ hcast, one_mul]
  exact hsum

/-- Witness for C10 on the concrete two-file scan, with the identity
iteration order. -/
theorem C10_witness :
    1 ≤ (scan (scanNodes [fileA, fileB] ["id-a", "id-b"])).average_complexity :=
  (C10_complexity_bounded_below [fileA, fileB] ["id-a", "id-b"]
    (scanNodes [fileA, fileB] ["id-a", "id-b"]) (List.Perm.refl _)).2.2
    (by decide)

/-! ## C4: dependency density — formula holds, upper bound does not

Duplicate dependency occurrences and self-loops each produce their own
edge, so the edge count can exceed `N*(N-1)` and the density can exceed
1.0 on reachable snapshots. -/

/-- C4 (counterexample): scanning a directory of two files where one
references module `a` three times yields 2 nodes and 3 edges, so the
snapshot's `dependency_density` is `3/2 > 1`, violating the claimed
`[0.0, 1.0]` bound. -/
theorem C4_counterexample_density_exceeds_one :
    (scan (scanNodes [fileA, fileB3] ["id-a", "id-b"])).metrics.dependency_density
        = 3 / 2
      ∧ ¬ (scan (scanNodes [fileA, fileB3]
            ["id-a", "id-b"])).metrics.dependency_density ≤ 1 := by
  have h : (scan (scanNodes [fileA, fileB3]
      ["id-a", "id-b"])).metrics.dependency_density = 3 / 2 := by
    show ((3 : ℕ) : ℚ) / (((2 * (2 - 1) : ℕ)) : ℚ) = 3 / 2
    norm_num
  refine ⟨h, ?_⟩
  rw [h]
  norm_num

/-- C4 (amended): for every scanned snapshot the density equals
`edge count / (N*(N-1))` when `N > 1` and `0` when `N ≤ 1`, and it is
non-negative; it is bounded by 1.0 exactly when the edge count does not
exceed `N*(N-1)` — which duplicate dependency occurrences and self-loops
can violate. -/
theorem C4_density_formula_and_conditional_bound
    (nodesIter : List ArchitectureNode) :
    ((scan nodesIter).nodes.length ≤ 1 →
        (scan nodesIter).metrics.dependency_density = 0)
      ∧ (1 < (scan nodesIter).nodes.length →
          (scan nodesIter).metrics.dependency_density
            = ((scan nodesIter).edges.length : ℚ)
              / (((scan nodesIter).nodes.length
                  * ((scan nodesIter).nodes.length - 1) : ℕ) : ℚ))
      ∧ 0 ≤ (scan nodesIter).metrics.dependency_density
      ∧ ((scan nodesIter).edges.length
            ≤ (scan nodesIter).nodes.length
              * ((scan nodesIter).nodes.length - 1) →
          (scan nodesIter).metrics.dependency_density ≤ 1) := by
  have hd : (scan nodesIter).metrics.dependency_density
      = calculate_dependency_density nodesIter (analyze_dependencies nodesIter) :=
    rfl
  have he : (scan nodesIter).edges = analyze_dependencies nodesIter := rfl
  have hn : (scan nodesIter).nodes = nodesIter := rfl
  rw [hd, he, hn]
  unfold calculate_dependency_density
  refine ⟨fun h1 => by simp [if_pos h1], fun h1 => ?_, ?_, fun hE => ?_⟩
  · dsimp only
    rw [if_neg (by omega)]
  · dsimp only
    split_ifs with h1
    · exact le_refl 0
    · positivity
  · dsimp only
    split_ifs with h1
    · exact zero_le_one
    · have hpos : 0 < nodesIter.length * (nodesIter.length - 1) :=
        Nat.mul_pos (by omega) (by omega)
      have hcast : (0:ℚ) < ((nodesIter.length * (nodesIter.length - 1) : ℕ) : ℚ) := by
        exact_mod_cast hpos
      rw [div_le_one hcast]
      exact_mod_cast hE

/-- Witness for C4 on the one-edge, two-node scan, whose edge count is
within the `N*(N-1)` budget: the formula case for `N > 1` and the bound
both apply with their hypotheses discharged. -/
theorem C4_witness :
    (scan (scanNodes [fileA, fileB] ["id-a", "id-b"])).metrics.dependency_density
        = ((scan (scanNodes [fileA, fileB] ["id-a", "id-b"])).edges.length : ℚ)
          / (((scan (scanNodes [fileA, fileB] ["id-a", "id-b"])).nodes.length
              * ((scan (scanNodes [fileA, fileB] ["id-a", "id-b"])).nodes.length
                - 1) : ℕ) : ℚ)
      ∧ (scan (scanNodes [fileA, fileB] ["id-a", "id-b"])).metrics.dependency_density ≤ 1 :=
  ⟨(C4_density_formula_and_conditional_bound
      (scanNodes [fileA, fileB] ["id-a", "id-b"])).2.1 (by decide),
    (C4_density_formula_and_conditional_bound
      (scanNodes [fileA, fileB] ["id-a", "id-b"])).2.2.2 (by decide)⟩

/-! ## C3: dependents and dependency counts are never filled in

`parse_rust_file` creates every node with `dependents: Vec::new()` and
`calculate_node_metrics` sets `dependency_count`/`dependent_count` to 0,
each with a source comment saying the dependency analyzer will update
them — but `analyze_dependencies` takes the node map by shared reference
and returns only edges; nothing ever writes those fields. -/

/-- C3 (code bug): on a two-file project with one resolved edge, the
returned snapshot still has every node with an empty `dependents` list and
zero dependency/dependent counts; in general every node of every scan
keeps the creation-time empty/zero values. -/
theorem C3_dependents_and_counts_never_filled :
    ((scan (scanNodes [fileA, fileB] ["id-a", "id-b"])).edges.length = 1
      ∧ ((scan (scanNodes [fileA, fileB] ["id-a", "id-b"])).nodes.all
          (fun n => n.dependents.isEmpty
            && (n.metrics.dependency_count == 0)
            && (n.metrics.dependent_count == 0))) = true)
    ∧ ∀ (files : List ScanFile) (ids : List String),
        ((scanNodes files ids).all
          (fun n => n.dependents.isEmpty
            && (n.metrics.dependency_count == 0)
            && (n.metrics.dependent_count == 0))) = true := by
  refine ⟨by decide, fun files ids => ?_⟩
  rw [List.all_eq_true]
  intro n hn
  simp only [scanNodes, List.mem_map] at hn
  obtain ⟨fi, -, rfl⟩ := hn
  rfl

/-! ## C5: the circularity flag is the adjacent-pair criterion, and a
self-loop detected as a length-one cycle is never flagged -/

/-- C5 (counterexample): a module naming itself yields a self-loop edge
and a detected length-one cycle `[id]`, yet the edge's `is_circular` stays
`false` — `windows(2)` of a one-element cycle is empty, so the flag update
never matches it. -/
theorem C5_counterexample_self_loop_not_flagged :
    (scan (scanNodes [fileSelf] ["id-s"])).circular_dependencies = [["id-s"]]
      ∧ ((scan (scanNodes [fileSelf] ["id-s"])).edges.map
          (fun e => (e.from_, e.to_, e.is_circular)))
        = [("id-s", "id-s", false)] := by
  exact ⟨by decide, by decide⟩

/-- Rewriting the circularity flags does not change the detected cycles:
the graph is built from `from`/`to` only. -/
theorem find_circular_dependencies_update (edges : List DependencyEdge) :
    find_circular_dependencies (update_circular_dependencies edges)
      = find_circular_dependencies edges := by
  unfold update_circular_dependencies find_circular_dependencies
  rw [List.length_map]
  unfold buildGraph
  rw [List.foldl_map]

/-- C5 (amended): an edge's `is_circular` is true exactly when its
`(from,to)` or `(to,from)` appears as an adjacent pair inside one of the
snapshot's detected cycle paths; a length-one cycle (a self-loop) has no
adjacent pair and therefore flags nothing. -/
theorem C5_circular_flag_iff_adjacent_pair (nodesIter : List ArchitectureNode) :
    (scan nodesIter).edges.all (fun e =>
      e.is_circular == (scan nodesIter).circular_dependencies.any (fun cycle =>
        (cycle.zip cycle.tail).any (fun pair =>
          (pair.1 == e.from_ && pair.2 == e.to_)
            || (pair.1 == e.to_ && pair.2 == e.from_)))) = true := by
  rw [List.all_eq_true]
  intro e he
  have hcyc : (scan nodesIter).circular_dependencies
      = find_circular_dependencies (analyze_edges nodesIter) :=
    find_circular_dependencies_update (analyze_edges nodesIter)
  have he' : e ∈ update_circular_dependencies (analyze_edges nodesIter) := he
  simp only [update_circular_dependencies, List.mem_map] at he'
  obtain ⟨e0, -, rfl⟩ := he'
  rw [beq_iff_eq, hcyc]

/-! ## C7: determinism of the scan modulo ids

Node ids are freshly generated UUIDs and the node map's iteration order is
unspecified, so a rescan is modelled as the same file list with a possibly
different id assignment and a possibly different iteration order
(permutation).  Projections replace edge-endpoint ids by the referenced
node's `(name, file_path)` key, the comparison key the claim prescribes. -/

/-- A node with its freshly generated id blanked; two nodes are
id-equivalent when they agree on everything else. -/
def stripId (n : ArchitectureNode) : ArchitectureNode :=
  { n with id := "" }

/-- The `(name, path)` comparison key of a node. -/
def nodeKey (n : ArchitectureNode) : String × String :=
  (n.name, n.file_path)

/-- The claim's per-node comparison data: name, path, kind and metrics. -/
def projNode (n : ArchitectureNode) :
    String × String × ModuleType × NodeMetrics :=
  (n.name, n.file_path, n.module_type, n.metrics)

/-- Resolve an id to the `(name, path)` key of the node owning it. -/
def idKey (nodes : List ArchitectureNode) (i : String) :
    Option (String × String) :=
  (nodes.find? (fun n => n.id == i)).map nodeKey

/-- An edge with its endpoint ids replaced by node keys (all remaining
fields kept) — the claim's full edge comparison data. -/
def projEdgeFull (nodes : List ArchitectureNode) (e : DependencyEdge) :
    Option (String × String) × Option (String × String)
      × DependencyType × ℚ × Bool :=
  (idKey nodes e.from_, idKey nodes e.to_, e.relationship, e.strength,
    e.is_circular)

/-- As `projEdgeFull` but without the traversal-order-dependent
`is_circular` flag. -/
def projEdgeStable (nodes : List ArchitectureNode) (e : DependencyEdge) :
    Option (String × String) × Option (String × String)
      × DependencyType × ℚ :=
  (idKey nodes e.from_, idKey nodes e.to_, e.relationship, e.strength)

/-- The id-free content of an edge built from `source` to `target`. -/
def absEdge (source target : ArchitectureNode) :
    Option (String × String) × Option (String × String)
      × DependencyType × ℚ :=
  (some (nodeKey source), some (nodeKey target),
    determine_relationship_type source target,
    calculate_dependency_strength source target)

/-- The id-free edge content produced by the edge-building loop. -/
def absEdges (ns : List ArchitectureNode) :
    List (Option (String × String) × Option (String × String)
      × DependencyType × ℚ) :=
  ns.flatMap (fun source =>
    source.dependencies.filterMap (fun d =>
      (find_node_by_name ns d).map (absEdge source)))

/-- `flatMap` respects pointwise equality on members. -/
theorem flatMap_congr_mem {α β : Type} {l : List α} {f g : α → List β}
    (h : ∀ a ∈ l, f a = g a) : l.flatMap f = l.flatMap g := by
  induction l with
  | nil => rfl
  | cons a rest ih =>
    rw [List.flatMap_cons, List.flatMap_cons,
      h a (List.mem_cons_self a rest),
      ih (fun x hx => h x (List.mem_cons_of_mem a hx))]

/-- With pairwise-distinct ids, looking a node's own id up in the map
returns that node. -/
theorem find_id_self {ns : List ArchitectureNode} {n : ArchitectureNode}
    (hnodup : (ns.map ArchitectureNode.id).Nodup) (hmem : n ∈ ns) :
    ns.find? (fun x => x.id == n.id) = some n := by
  induction ns with
  | nil => cases hmem
  | cons a rest ih =>
    rw [List.map_cons, List.nodup_cons] at hnodup
    rcases List.mem_cons.mp hmem with rfl | hmem'
    · exact List.find?_cons_of_pos rest (by simp)
    · have hne : ¬ a.id = n.id := by
        intro h
        exact hnodup.1 (h ▸ List.mem_map_of_mem ArchitectureNode.id hmem')
      rw [List.find?_cons_of_neg rest (by simp [hne])]
      exact ih hnodup.2 hmem'

/-- With pairwise-distinct ids, projecting the analyzer's edges onto node
keys recovers exactly the id-free edge content (the flag rewrite touches
nothing the projection keeps). -/
theorem projEdges_analyze {ns : List ArchitectureNode}
    (hnodup : (ns.map ArchitectureNode.id).Nodup) :
    (analyze_dependencies ns).map (projEdgeStable ns) = absEdges ns := by
  have hupd : (analyze_dependencies ns).map (projEdgeStable ns)
      = (analyze_edges ns).map (projEdgeStable ns) := by
    unfold analyze_dependencies update_circular_dependencies
    rw [List.map_map]
    rfl
  rw [hupd]
  unfold analyze_edges absEdges
  rw [List.map_flatMap]
  refine flatMap_congr_mem ?_
  intro source hsource
  rw [List.map_filterMap]
  congr 1
  funext d
  cases hfd : find_node_by_name ns d with
  | none => rfl
  | some target =>
    have htmem : target ∈ ns := List.mem_of_find?_eq_some hfd
    have hcomp : ((ns.find? (fun x => x.id == source.id)).map nodeKey,
          (ns.find? (fun x => x.id == target.id)).map nodeKey,
          determine_relationship_type source target,
          calculate_dependency_strength source target)
        = (some (nodeKey source), some (nodeKey target),
          determine_relationship_type source target,
          calculate_dependency_strength source target) := by
      rw [find_id_self hnodup hsource, find_id_self hnodup htmem]
      rfl
    exact congrArg some hcomp

/-- With pairwise-distinct names, name lookup returns the unique node of
that name. -/
theorem find_name_unique {ns : List ArchitectureNode} {u : ArchitectureNode}
    {d : String} (hnames : (ns.map ArchitectureNode.name).Nodup)
    (hu : u ∈ ns) (hud : u.name = d) :
    ns.find? (fun x => x.name == d) = some u := by
  have hs : (ns.find? (fun x => x.name == d)).isSome :=
    List.find?_isSome.mpr ⟨u, hu, by simp [hud]⟩
  cases hfind : ns.find? (fun x => x.name == d) with
  | none => rw [hfind] at hs; cases hs
  | some y =>
    have hymem : y ∈ ns := List.mem_of_find?_eq_some hfind
    have hyname : y.name = d := by simpa using List.find?_some hfind
    have : y = u :=
      List.inj_on_of_nodup_map hnames hymem hu (by rw [hyname, hud])
    rw [this]

/-- With pairwise-distinct names, name resolution is invariant under
reordering the map. -/
theorem find_name_eq_of_perm {ns1 ns2 : List ArchitectureNode}
    (hperm : ns1.Perm ns2)
    (hnames : (ns1.map ArchitectureNode.name).Nodup) (d : String) :
    find_node_by_name ns1 d = find_node_by_name ns2 d := by
  have hnames2 : (ns2.map ArchitectureNode.name).Nodup :=
    ((hperm.map ArchitectureNode.name).nodup_iff).mp hnames
  unfold find_node_by_name
  by_cases hex : ∃ x ∈ ns1, x.name = d
  · obtain ⟨u, hu, hud⟩ := hex
    rw [find_name_unique hnames hu hud,
      find_name_unique hnames2 (hperm.subset hu) hud]
  · push_neg at hex
    rw [List.find?_eq_none.mpr (fun x hx => by simp [hex x hx]),
      List.find?_eq_none.mpr
        (fun x hx => by simp [hex x (hperm.symm.subset hx)])]

/-- With pairwise-distinct names, the id-free edge content is permuted
along with the map order. -/
theorem absEdges_perm {ns1 ns2 : List ArchitectureNode}
    (hperm : ns1.Perm ns2)
    (hnames : (ns1.map ArchitectureNode.name).Nodup) :
    (absEdges ns1).Perm (absEdges ns2) := by
  unfold absEdges
  have hfun : ∀ source : ArchitectureNode,
      source.dependencies.filterMap (fun d =>
        (find_node_by_name ns1 d).map (absEdge source))
      = source.dependencies.filterMap (fun d =>
        (find_node_by_name ns2 d).map (absEdge source)) := by
    intro source
    congr 1
    funext d
    rw [find_name_eq_of_perm hperm hnames d]
  have h2 : ns2.flatMap (fun source => source.dependencies.filterMap (fun d =>
        (find_node_by_name ns1 d).map (absEdge source)))
      = ns2.flatMap (fun source => source.dependencies.filterMap (fun d =>
        (find_node_by_name ns2 d).map (absEdge source))) :=
    flatMap_congr_mem (fun a _ => hfun a)
  exact h2 ▸ hperm.flatMap_right _
/-- Name lookup depends only on the id-free content of the map. -/
theorem find_strip {ns1 ns2 : List ArchitectureNode}
    (h : List.Forall₂ (fun a b => stripId a = stripId b) ns1 ns2) (d : String) :
    Option.map stripId (find_node_by_name ns1 d)
      = Option.map stripId (find_node_by_name ns2 d) := by
  induction h with
  | nil => rfl
  | @cons a b l1 l2 hab htail ih =>
    have hname : a.name = b.name := by
      have := congrArg ArchitectureNode.name hab
      exact this
    unfold find_node_by_name at *
    by_cases hd : a.name = d
    · rw [List.find?_cons_of_pos l1 (by simp [hd]),
        List.find?_cons_of_pos l2 (by simp [← hname, hd])]
      simpa using hab
    · rw [List.find?_cons_of_neg l1 (by simp [hd]),
        List.find?_cons_of_neg l2 (by simp [← hname, hd])]
      exact ih

/-- The id-free edge data of an edge depends only on the id-free contents
of its endpoints. -/
theorem absEdge_strip {a b c d : ArchitectureNode}
    (hab : stripId a = stripId b) (hcd : stripId c = stripId d) :
    absEdge a c = absEdge b d := by
  have h1 : a.name = b.name := by
    have := congrArg ArchitectureNode.name hab
    exact this
  have h2 : a.file_path = b.file_path := by
    have := congrArg ArchitectureNode.file_path hab
    exact this
  have h3 : a.module_type = b.module_type := by
    have := congrArg ArchitectureNode.module_type hab
    exact this
  have h4 : a.dependencies = b.dependencies := by
    have := congrArg ArchitectureNode.dependencies hab
    exact this
  have h5 : c.name = d.name := by
    have := congrArg ArchitectureNode.name hcd
    exact this
  have h6 : c.file_path = d.file_path := by
    have := congrArg ArchitectureNode.file_path hcd
    exact this
  have h7 : c.module_type = d.module_type := by
    have := congrArg ArchitectureNode.module_type hcd
    exact this
  unfold absEdge nodeKey determine_relationship_type
    calculate_dependency_strength
  rw [h1, h2, h3, h4, h5, h6, h7]

/-- The edge contributions of id-equivalent source lists agree, for fixed
lookup maps with id-equivalent lookup results. -/
theorem absEdges_strip_aux {ns1 ns2 : List ArchitectureNode}
    (hfind : ∀ d, Option.map stripId (find_node_by_name ns1 d)
      = Option.map stripId (find_node_by_name ns2 d)) :
    ∀ {l1 l2 : List ArchitectureNode},
      List.Forall₂ (fun a b => stripId a = stripId b) l1 l2 →
      l1.flatMap (fun source => source.dependencies.filterMap (fun d =>
        (find_node_by_name ns1 d).map (absEdge source)))
      = l2.flatMap (fun source => source.dependencies.filterMap (fun d =>
        (find_node_by_name ns2 d).map (absEdge source))) := by
  intro l1 l2 h
  induction h with
  | nil => rfl
  | @cons a b t1 t2 hab htail ih =>
    rw [List.flatMap_cons, List.flatMap_cons, ih]
    congr 1
    have hdeps : a.dependencies = b.dependencies := by
      have := congrArg ArchitectureNode.dependencies hab
      exact this
    rw [← hdeps]
    congr 1
    funext d
    have hfd := hfind d
    cases h1 : find_node_by_name ns1 d with
    | none =>
      cases h2 : find_node_by_name ns2 d with
      | none => rfl
      | some t2x => rw [h1, h2] at hfd; cases hfd
    | some t1x =>
      cases h2 : find_node_by_name ns2 d with
      | none => rw [h1, h2] at hfd; cases hfd
      | some t2x =>
        rw [h1, h2] at hfd
        have ht : stripId t1x = stripId t2x := by
          simpa using hfd
        exact congrArg some (absEdge_strip hab ht)

/-- The id-free edge content of a map depends only on the id-free contents
of its nodes (same order). -/
theorem absEdges_strip {ns1 ns2 : List ArchitectureNode}
    (h : List.Forall₂ (fun a b => stripId a = stripId b) ns1 ns2) :
    absEdges ns1 = absEdges ns2 :=
  absEdges_strip_aux (find_strip h) h

/-- Two parses of the same file list under different id assignments are
pointwise id-equivalent. -/
theorem scanNodes_forall2 (files : List ScanFile) :
    ∀ (ids1 ids2 : List String), ids1.length = files.length →
      ids2.length = files.length →
      List.Forall₂ (fun a b => stripId a = stripId b)
        (scanNodes files ids1) (scanNodes files ids2) := by
  induction files with
  | nil =>
    intro ids1 ids2 h1 h2
    simp [scanNodes]
  | cons f rest ih =>
    intro ids1 ids2 h1 h2
    cases ids1 with
    | nil => simp at h1
    | cons i1 r1 =>
      cases ids2 with
      | nil => simp at h2
      | cons i2 r2 =>
        simp only [scanNodes, List.zip_cons_cons, List.map_cons]
        exact List.Forall₂.cons rfl
          (ih r1 r2 (by simpa using h1) (by simpa using h2))

/-- Id-equivalent node lists share their name sequence. -/
theorem map_name_forall2 {l1 l2 : List ArchitectureNode}
    (h : List.Forall₂ (fun a b => stripId a = stripId b) l1 l2) :
    l1.map ArchitectureNode.name = l2.map ArchitectureNode.name := by
  induction h with
  | nil => rfl
  | @cons a b t1 t2 hab htail ih =>
    have hname : a.name = b.name := by
      have := congrArg ArchitectureNode.name hab
      exact this
    simp only [List.map_cons, hname, ih]

/-- Id-equivalent node lists share their claim-level node data. -/
theorem map_projNode_forall2 {l1 l2 : List ArchitectureNode}
    (h : List.Forall₂ (fun a b => stripId a = stripId b) l1 l2) :
    l1.map projNode = l2.map projNode := by
  induction h with
  | nil => rfl
  | @cons a b t1 t2 hab htail ih =>
    have hproj : projNode a = projNode b := by
      unfold projNode
      have h1 : a.name = b.name := by
        have := congrArg ArchitectureNode.name hab
        exact this
      have h2 : a.file_path = b.file_path := by
        have := congrArg ArchitectureNode.file_path hab
        exact this
      have h3 : a.module_type = b.module_type := by
        have := congrArg ArchitectureNode.module_type hab
        exact this
      have h4 : a.metrics = b.metrics := by
        have := congrArg ArchitectureNode.metrics hab
        exact this
      rw [h1, h2, h3, h4]
    simp only [List.map_cons, hproj, ih]

/-- The ids of the parsed nodes are exactly the assigned ids. -/
theorem scanNodes_map_id (files : List ScanFile) :
    ∀ ids : List String, ids.length = files.length →
      (scanNodes files ids).map ArchitectureNode.id = ids := by
  induction files with
  | nil =>
    intro ids h
    cases ids with
    | nil => rfl
    | cons i r => simp at h
  | cons f rest ih =>
    intro ids h
    cases ids with
    | nil => simp at h
    | cons i r =>
      simp only [scanNodes, List.zip_cons_cons, List.map_cons]
      have := ih r (by simpa using h)
      simp only [scanNodes] at this
      rw [this]
      rfl

/-- C7 (amended): two scans of the same unchanged file list — each with its
own fresh id assignment and its own map iteration order — agree on the
multiset of per-node `(name, path, kind, metrics)` data, and, provided the
resolved module names are pairwise distinct, on the multiset of edges
projected to `(from key, to key, relationship, strength)` under the
`(name, path)` keys.  (The `is_circular` flag is excluded: cycle detection
enumerates cycles in map-iteration order, which is not deterministic.) -/
theorem C7_scan_deterministic_modulo_ids
    (files : List ScanFile) (ids1 ids2 : List String)
    (iter1 iter2 : List ArchitectureNode)
    (hlen1 : ids1.length = files.length) (hlen2 : ids2.length = files.length)
    (hid1 : ids1.Nodup) (hid2 : ids2.Nodup)
    (hiter1 : iter1.Perm (scanNodes files ids1))
    (hiter2 : iter2.Perm (scanNodes files ids2))
    (hnames : ((scanNodes files ids1).map ArchitectureNode.name).Nodup) :
    ((scan iter1).nodes.map projNode).Perm ((scan iter2).nodes.map projNode)
      ∧ ((scan iter1).edges.map (projEdgeStable (scan iter1).nodes)).Perm
          ((scan iter2).edges.map (projEdgeStable (scan iter2).nodes)) := by
  have hF2 : List.Forall₂ (fun a b => stripId a = stripId b)
      (scanNodes files ids1) (scanNodes files ids2) :=
    scanNodes_forall2 files ids1 ids2 hlen1 hlen2
  constructor
  · show (iter1.map projNode).Perm (iter2.map projNode)
    have step1 := hiter1.map projNode
    have step2 := map_projNode_forall2 hF2
    have step3 := (hiter2.map projNode).symm
    exact step1.trans (step2 ▸ step3)
  · show ((analyze_dependencies iter1).map (projEdgeStable iter1)).Perm
      ((analyze_dependencies iter2).map (projEdgeStable iter2))
    have hids1 : (iter1.map ArchitectureNode.id).Nodup := by
      refine ((hiter1.map ArchitectureNode.id).nodup_iff).mpr ?_
      rw [scanNodes_map_id files ids1 hlen1]
      exact hid1
    have hids2 : (iter2.map ArchitectureNode.id).Nodup := by
      refine ((hiter2.map ArchitectureNode.id).nodup_iff).mpr ?_
      rw [scanNodes_map_id files ids2 hlen2]
      exact hid2
    have hnames1 : (iter1.map ArchitectureNode.name).Nodup :=
      ((hiter1.map ArchitectureNode.name).nodup_iff).mpr hnames
    have hnames2 : (iter2.map ArchitectureNode.name).Nodup := by
      refine ((hiter2.map ArchitectureNode.name).nodup_iff).mpr ?_
      rw [← map_name_forall2 hF2]
      exact hnames
    rw [projEdges_analyze hids1, projEdges_analyze hids2]
    have p1 : (absEdges iter1).Perm (absEdges (scanNodes files ids1)) :=
      absEdges_perm hiter1 hnames1
    have p2 : (absEdges iter2).Perm (absEdges (scanNodes files ids2)) :=
      absEdges_perm hiter2 hnames2
    have e2 : absEdges (scanNodes files ids1) = absEdges (scanNodes files ids2) :=
      absEdges_strip hF2
    exact p1.trans (e2 ▸ p2.symm)

/-- A file `x/a.rs` with empty content: resolved name `a` (stem). -/
def fileA1 : ScanFile := ⟨"x/a.rs", "a", "x/a.rs", ""⟩

/-- A file `y/a.rs` with empty content: resolved name `a` (stem) — the same
name as `fileA1` at a different path. -/
def fileA2 : ScanFile := ⟨"y/a.rs", "a", "y/a.rs", ""⟩

/-- C7 (counterexample): with two different files both resolving to the
name `a` and a third file depending on `a`, two runs over the same
directory that differ only in map iteration order resolve the dependency
to different targets, so the edge sets compared on `(name, path)` keys
differ — the claim fails for directories with duplicate resolved names. -/
theorem C7_counterexample_duplicate_names :
    (scanNodes [fileA2, fileA1, fileB] ["2", "1", "3"]).Perm
        (scanNodes [fileA1, fileA2, fileB] ["1", "2", "3"])
      ∧ ¬ (((scan (scanNodes [fileA1, fileA2, fileB] ["1", "2", "3"])).edges.map
            (projEdgeFull
              (scan (scanNodes [fileA1, fileA2, fileB] ["1", "2", "3"])).nodes)).Perm
          ((scan (scanNodes [fileA2, fileA1, fileB] ["2", "1", "3"])).edges.map
            (projEdgeFull
              (scan (scanNodes [fileA2, fileA1, fileB] ["2", "1", "3"])).nodes))) := by
  constructor
  · exact List.Perm.swap (parse_rust_file "1" fileA1) (parse_rust_file "2" fileA2)
      [parse_rust_file "3" fileB]
  · intro h
    have h2 := h.map (fun t => (t.1, t.2.1, t.2.2.1, t.2.2.2.2))
    exact absurd h2 (by decide)

/-- Witness for C7 on a two-file directory with distinct names, using two
different id assignments and the identity iteration orders. -/
theorem C7_witness :
    ((scan (scanNodes [fileA, fileB] ["1", "2"])).nodes.map projNode).Perm
        ((scan (scanNodes [fileA, fileB] ["3", "4"])).nodes.map projNode)
      ∧ ((scan (scanNodes [fileA, fileB] ["1", "2"])).edges.map
          (projEdgeStable (scan (scanNodes [fileA, fileB] ["1", "2"])).nodes)).Perm
          ((scan (scanNodes [fileA, fileB] ["3", "4"])).edges.map
            (projEdgeStable (scan (scanNodes [fileA, fileB] ["3", "4"])).nodes)) :=
  C7_scan_deterministic_modulo_ids [fileA, fileB] ["1", "2"] ["3", "4"]
    (scanNodes [fileA, fileB] ["1", "2"]) (scanNodes [fileA, fileB] ["3", "4"])
    rfl rfl (by decide) (by decide) (List.Perm.refl _) (List.Perm.refl _)
    (by decide)
